import Mathlib

/-!
Shallow embedding of the `shmem-bind` library (src/src/lib.rs).

The library wraps POSIX named shared memory: a `Builder` collects a name
(`id`) and a byte `size : i64`; `BuilderWithSize::open` performs the
create-or-attach protocol (`shm_open` with `O_CREAT|O_EXCL|O_RDWR`, falling
back on `EEXIST` to a plain `O_RDWR` open, `ftruncate`, `mmap`) and returns a
`ShmemConf` descriptor; `ShmemConf::boxed` reinterprets the mapping as a
typed `ShmemBox<T>`; `ShmemBox::own` / `ShmemBox::leak` flip the `is_owner`
flag; the `Drop` impls of `ShmemBox<T>` and `ShmemConf` run the destruction
cascade (`drop_in_place`, `munmap`, `shm_unlink`, `close`).

The OS is the environment: its call results are supplied by oracle
structures (`OpenOracle`, `DropOracle`), and each embedded operation returns,
besides its result, the list of OS calls it issued (`OsCall`), in order.
Strings are lists of byte values (`List Nat`); the Rust `i64` sizes are
`Int`, with the `as usize` cast made explicit.
-/

namespace ShmemBind

/-- The `libc::EEXIST` errno value. -/
def EEXIST : Int := 17

/-- Rust's `as usize` cast from `i64` (two's-complement wrap into `2^64`). -/
def usizeOfI64 (i : Int) : Nat := (i.emod (2 ^ 64)).toNat

/-- The byte string a C routine reads from a buffer: the bytes up to the
first `0`, plus the terminator. Models what `shm_open` / `shm_unlink` see
behind a `*const c_char`. -/
def cstrRead (bs : List Nat) : List Nat := bs.takeWhile (· != 0) ++ [0]

/-- One OS call issued by the library, with the arguments the source passes.
`open` never issues `shmUnlink` or `close` (the source contains no such call
before returning), but the type can express them so their absence is a
statement about the code, not about the type. -/
inductive OsCall
  /-- call `shm_open(name, O_CREAT | O_EXCL | O_RDWR, perm)` -/
  | shmOpenExclCreate (name : List Nat) (perm : Nat)
  /-- call `shm_open(name, O_RDWR, perm)` -/
  | shmOpenExisting (name : List Nat) (perm : Nat)
  /-- call `ftruncate(fd, len)` -/
  | ftruncate (fd : Int) (len : Int)
  /-- call `mmap(null, len, PROT_READ | PROT_WRITE, MAP_SHARED, fd, 0)` -/
  | mmapShared (len : Nat) (fd : Int)
  /-- call `munmap(addr, len)` -/
  | munmap (addr : Nat) (len : Nat)
  /-- call `shm_unlink(name)` -/
  | shmUnlink (name : List Nat)
  /-- call `close(fd)` -/
  | close (fd : Int)
  /-- run `drop_in_place(ptr)`, the destructor of `T`, on the pointee -/
  | dropInPlace (ptr : Nat)
  deriving DecidableEq, Repr

/-- Whether a call is a `shm_unlink`. -/
def OsCall.isUnlink : OsCall → Bool
  | .shmUnlink _ => true
  | _ => false

/-- Whether a call is a `close`. -/
def OsCall.isClose : OsCall → Bool
  | .close _ => true
  | _ => false

/-- Whether a call is a `drop_in_place`. -/
def OsCall.isDropInPlace : OsCall → Bool
  | .dropInPlace _ => true
  | _ => false

/-- Whether a call is an `ftruncate`. -/
def OsCall.isFtruncate : OsCall → Bool
  | .ftruncate _ _ => true
  | _ => false

/-- Rust `pub struct Builder { id: String }`. -/
structure Builder where
  id : List Nat
  deriving DecidableEq, Repr

/-- Rust `Builder::new(id)`. -/
def Builder.new (id : List Nat) : Builder := ⟨id⟩

/-- Rust `pub struct BuilderWithSize { id: String, size: i64 }`. -/
structure BuilderWithSize where
  id : List Nat
  size : Int
  deriving DecidableEq, Repr

/-- Rust `Builder::with_size(self, size) -> BuilderWithSize` — stores the size
unchanged, with no validation and no failure path. -/
def Builder.with_size (b : Builder) (size : Int) : BuilderWithSize :=
  ⟨b.id, size⟩

/-- Rust `pub struct ShmemConf { id, is_owner, fd, addr: NonNull<()>, size }`.
The non-null address is a `Nat`, with `0` encoding the null pointer; `open`
only constructs descriptors with `addr ≠ 0`. -/
structure ShmemConf where
  id : List Nat
  is_owner : Bool
  fd : Int
  addr : Nat
  size : Int
  deriving DecidableEq, Repr

/-- Rust `pub enum ShmemError { CreateFailedErr, AllocationFailedErr, NullPointerErr }`. -/
inductive ShmemError
  | CreateFailedErr
  | AllocationFailedErr
  | NullPointerErr
  deriving DecidableEq, Repr

/-- Outcome of `BuilderWithSize::open`: a Rust panic (the
`CString::new(..).unwrap()` on an id with an interior NUL byte), an error
value `Err(e)`, or `Ok(conf)`. -/
inductive OpenResult
  | panicked (msg : String)
  | err (e : ShmemError)
  | ok (c : ShmemConf)
  deriving DecidableEq, Repr

/-- Whether an `OpenResult` is a Rust panic. -/
def OpenResult.isPanicked : OpenResult → Bool
  | .panicked _ => true
  | _ => false

/-- OS results consumed by one run of `BuilderWithSize::open`, in the order
the source consults them. `mmapAddr = 0` encodes a null `mmap` result. -/
structure OpenOracle where
  /-- return value of `shm_open(.., O_CREAT | O_EXCL | O_RDWR, 0o600)` -/
  exclFd : Int
  /-- the `errno` observed (via `last_os_error`) when `exclFd < 0` -/
  errno : Int
  /-- return value of `shm_open(.., O_RDWR, 0o600)` on the `EEXIST` path -/
  plainFd : Int
  /-- return value of `ftruncate(exclFd, size)` on the create path -/
  ftruncRes : Int
  /-- address returned by `mmap` (`0` = null) -/
  mmapAddr : Nat
  deriving DecidableEq, Repr

/-- The tail of `BuilderWithSize::open` after the fd/owner resolution:
`mmap` the object and build the `ShmemConf`, or fail on a null address
(`NonNull::new(addr).ok_or(ShmemError::NullPointerErr)?`). -/
def openFinish (id : List Nat) (size : Int) (fd : Int) (owner : Bool)
    (addr : Nat) (calls : List OsCall) : OpenResult × List OsCall :=
  if addr = 0 then
    (.err .NullPointerErr, calls ++ [OsCall.mmapShared (usizeOfI64 size) fd])
  else
    (.ok ⟨id, owner, fd, addr, size⟩,
     calls ++ [OsCall.mmapShared (usizeOfI64 size) fd])

/-- Rust `BuilderWithSize::open(self) -> Result<ShmemConf, ShmemError>`, embedded
with the OS results supplied by `o` and the issued OS calls recorded.

Source control flow: `CString::new(id).unwrap()` (panics on an interior NUL);
exclusive `shm_open` with permission `0o600`; on success `ftruncate(fd, size)`
(failure ⇒ `Err(AllocationFailedErr)`), owner = true; on failure with
`errno = EEXIST` a plain `shm_open` (failure ⇒ `Err(CreateFailedErr)`),
owner = false; any other failure ⇒ `Err(CreateFailedErr)`; then `mmap`. -/
def openImpl (id : List Nat) (size : Int) (o : OpenOracle) :
    OpenResult × List OsCall :=
  if id.contains 0 then
    (.panicked "called Result::unwrap on an Err value", [])
  else if o.exclFd ≥ 0 then
    if o.ftruncRes < 0 then
      (.err .AllocationFailedErr,
       [.shmOpenExclCreate (id ++ [0]) 0o600, .ftruncate o.exclFd size])
    else
      openFinish id size o.exclFd true o.mmapAddr
        [.shmOpenExclCreate (id ++ [0]) 0o600, .ftruncate o.exclFd size]
  else if o.errno = EEXIST then
    if o.plainFd < 0 then
      (.err .CreateFailedErr,
       [.shmOpenExclCreate (id ++ [0]) 0o600, .shmOpenExisting (id ++ [0]) 0o600])
    else
      openFinish id size o.plainFd false o.mmapAddr
        [.shmOpenExclCreate (id ++ [0]) 0o600, .shmOpenExisting (id ++ [0]) 0o600]
  else
    (.err .CreateFailedErr, [.shmOpenExclCreate (id ++ [0]) 0o600])

/-- Rust `ShmemConf::is_owner(&self) -> bool`. -/
def ShmemConf.isOwner (c : ShmemConf) : Bool := c.is_owner

/-- Rust `pub struct ShmemBox<T> { ptr: NonNull<T>, conf: ShmemConf }` (the type
parameter `T` is erased; `ptr` is the address of the pointee). -/
structure ShmemBox where
  ptr : Nat
  conf : ShmemConf
  deriving DecidableEq, Repr

/-- Rust `ShmemConf::boxed(self) -> ShmemBox<T>`: `ptr` is the descriptor's
mapped address cast to `T`. -/
def ShmemConf.boxed (c : ShmemConf) : ShmemBox := ⟨c.addr, c⟩

/-- Rust `ShmemBox::own(shmem_box) -> ShmemBox`: sets `conf.is_owner = true`,
everything else unchanged. -/
def ShmemBox.own (b : ShmemBox) : ShmemBox :=
  { b with conf := { b.conf with is_owner := true } }

/-- Outcome of a destruction cascade: normal completion, or a Rust panic
(which aborts the process; later steps do not run). -/
inductive DropOutcome
  | ok
  | panicked (msg : String)
  deriving DecidableEq, Repr

/-- OS results consumed by one run of the `Drop` impls, plus the bytes that
happen to sit in memory after the `id` string's buffer: `ShmemConf::drop`
passes `self.id.as_bytes().as_ptr()` to `shm_unlink` without appending a NUL
terminator, so the OS reads past the buffer into `trailing`. -/
structure DropOracle where
  munmapRes : Int
  unlinkRes : Int
  closeRes : Int
  trailing : List Nat
  deriving DecidableEq, Repr

/-- Rust `impl Drop for ShmemConf`: `munmap(addr, size as usize)` (panic on
nonzero); if `is_owner`, `shm_unlink(id.as_bytes().as_ptr())` (panic on
nonzero); `close(fd)` (panic on nonzero). Returns the calls issued before
completion or the panic, and the outcome. -/
def ShmemConf.dropImpl (c : ShmemConf) (o : DropOracle) :
    List OsCall × DropOutcome :=
  if o.munmapRes ≠ 0 then
    ([.munmap c.addr (usizeOfI64 c.size)],
     .panicked "failed to unmap shared memory from the virtual memory space")
  else if c.is_owner ∧ o.unlinkRes ≠ 0 then
    ([.munmap c.addr (usizeOfI64 c.size),
      .shmUnlink (cstrRead (c.id ++ o.trailing))],
     .panicked "failed to reclaim shared memory")
  else if o.closeRes ≠ 0 then
    ([.munmap c.addr (usizeOfI64 c.size)] ++
      (if c.is_owner then [.shmUnlink (cstrRead (c.id ++ o.trailing))] else []) ++
      [.close c.fd],
     .panicked "failed to close shared memory file descriptor")
  else
    ([.munmap c.addr (usizeOfI64 c.size)] ++
      (if c.is_owner then [.shmUnlink (cstrRead (c.id ++ o.trailing))] else []) ++
      [.close c.fd],
     .ok)

/-- End of a `ShmemBox<T>`'s lifetime: `impl Drop for ShmemBox<T>` (if
`conf.is_owner`, `drop_in_place(ptr)`), then Rust's drop glue drops the
`conf` field, running `ShmemConf::dropImpl`. -/
def ShmemBox.dropImpl (b : ShmemBox) (o : DropOracle) :
    List OsCall × DropOutcome :=
  ((if b.conf.is_owner then [OsCall.dropInPlace b.ptr] else []) ++
    (b.conf.dropImpl o).1,
   (b.conf.dropImpl o).2)

/-- Rust `ShmemBox::leak(shmem_box)`: sets `conf.is_owner = false`; the box then
goes out of scope at the end of `leak`'s body, so its full drop cascade runs
with the cleared flag. -/
def ShmemBox.leak (b : ShmemBox) (o : DropOracle) : List OsCall × DropOutcome :=
  ShmemBox.dropImpl { b with conf := { b.conf with is_owner := false } } o

/-! ## OS object model

The named-shared-memory objects of the system, for the claims that relate a
destruction cascade to a *subsequent* `open` of the same name. A state maps
null-terminated object names to objects (their payload bytes). `shm_unlink`
removes the entry; `munmap` / `close` leave the table untouched;
`drop_in_place` runs `T`'s destructor, whose effect on the payload bytes
depends on `T` and is not modelled (`none`). -/

/-- A named shared-memory object: its payload bytes. -/
structure OsObject where
  payload : List Nat
  deriving DecidableEq, Repr

/-- The system's table of named shared-memory objects, keyed by the
null-terminated name. -/
abbrev OsState := List (List Nat × OsObject)

/-- Look up the object registered under `name`. -/
def lookupObj (st : OsState) (name : List Nat) : Option OsObject :=
  (st.find? (fun p => p.1 == name)).map (·.2)

/-- Effect of one OS call on the object table. -/
def applyCall (st : OsState) : OsCall → Option OsState
  | .shmUnlink n => some (st.filter (fun p => p.1 != n))
  | .dropInPlace _ => none
  | _ => some st

/-- Effect of a call trace on the object table. -/
def applyCalls (st : OsState) (calls : List OsCall) : Option OsState :=
  calls.foldlM applyCall st

/-- The `OpenOracle` describing an OS in state `st` handling `open` on `id`:
the exclusive create fails with `EEXIST` exactly when the name is taken,
and otherwise the calls succeed, handing out descriptor `fd` and mapping
address `addr`. -/
def oracleOf (st : OsState) (id : List Nat) (fd : Int) (addr : Nat) :
    OpenOracle :=
  if (lookupObj st (id ++ [0])).isSome then
    ⟨-1, EEXIST, fd, 0, addr⟩
  else
    ⟨fd, 0, -1, 0, addr⟩

/-- Rust `BuilderWithSize::open` run against an OS in state `st`. -/
def openSys (id : List Nat) (size : Int) (st : OsState) (fd : Int)
    (addr : Nat) : OpenResult × List OsCall :=
  openImpl id size (oracleOf st id fd addr)

/-! ## Theorems -/

/-- Branch of `openImpl`: exclusive create succeeded, `ftruncate` failed. -/
theorem openImpl_alloc_fail (id : List Nat) (size : Int) (o : OpenOracle)
    (hid : id.contains 0 = false) (h1 : o.exclFd ≥ 0) (h2 : o.ftruncRes < 0) :
    openImpl id size o =
      (.err .AllocationFailedErr,
       [.shmOpenExclCreate (id ++ [0]) 0o600, .ftruncate o.exclFd size]) := by
  have hid' : (0 : Nat) ∉ id := by simpa using hid
  simp [openImpl, hid', h1, h2]

/-- Branch of `openImpl`: create path, `mmap` returned null. -/
theorem openImpl_create_null (id : List Nat) (size : Int) (o : OpenOracle)
    (hid : id.contains 0 = false) (h1 : o.exclFd ≥ 0) (h2 : ¬ o.ftruncRes < 0)
    (h3 : o.mmapAddr = 0) :
    openImpl id size o =
      (.err .NullPointerErr,
       [.shmOpenExclCreate (id ++ [0]) 0o600, .ftruncate o.exclFd size,
        .mmapShared (usizeOfI64 size) o.exclFd]) := by
  have hid' : (0 : Nat) ∉ id := by simpa using hid
  simp [openImpl, openFinish, hid', h1, h2, h3]

/-- Branch of `openImpl`: create path, all calls succeeded. -/
theorem openImpl_create_ok (id : List Nat) (size : Int) (o : OpenOracle)
    (hid : id.contains 0 = false) (h1 : o.exclFd ≥ 0) (h2 : ¬ o.ftruncRes < 0)
    (h3 : o.mmapAddr ≠ 0) :
    openImpl id size o =
      (.ok ⟨id, true, o.exclFd, o.mmapAddr, size⟩,
       [.shmOpenExclCreate (id ++ [0]) 0o600, .ftruncate o.exclFd size,
        .mmapShared (usizeOfI64 size) o.exclFd]) := by
  have hid' : (0 : Nat) ∉ id := by simpa using hid
  simp [openImpl, openFinish, hid', h1, h2, h3]

/-- Branch of `openImpl`: object existed, the plain reopen failed. -/
theorem openImpl_eexist_reopen_fail (id : List Nat) (size : Int)
    (o : OpenOracle) (hid : id.contains 0 = false) (h1 : ¬ o.exclFd ≥ 0)
    (he : o.errno = EEXIST) (hp : o.plainFd < 0) :
    openImpl id size o =
      (.err .CreateFailedErr,
       [.shmOpenExclCreate (id ++ [0]) 0o600,
        .shmOpenExisting (id ++ [0]) 0o600]) := by
  have hid' : (0 : Nat) ∉ id := by simpa using hid
  simp [openImpl, hid', h1, he, hp]

/-- Branch of `openImpl`: attach path, `mmap` returned null. -/
theorem openImpl_eexist_null (id : List Nat) (size : Int) (o : OpenOracle)
    (hid : id.contains 0 = false) (h1 : ¬ o.exclFd ≥ 0)
    (he : o.errno = EEXIST) (hp : ¬ o.plainFd < 0) (h3 : o.mmapAddr = 0) :
    openImpl id size o =
      (.err .NullPointerErr,
       [.shmOpenExclCreate (id ++ [0]) 0o600,
        .shmOpenExisting (id ++ [0]) 0o600,
        .mmapShared (usizeOfI64 size) o.plainFd]) := by
  have hid' : (0 : Nat) ∉ id := by simpa using hid
  simp [openImpl, openFinish, hid', h1, he, hp, h3]

/-- Branch of `openImpl`: attach path, all calls succeeded. -/
theorem openImpl_eexist_ok (id : List Nat) (size : Int) (o : OpenOracle)
    (hid : id.contains 0 = false) (h1 : ¬ o.exclFd ≥ 0)
    (he : o.errno = EEXIST) (hp : ¬ o.plainFd < 0) (h3 : o.mmapAddr ≠ 0) :
    openImpl id size o =
      (.ok ⟨id, false, o.plainFd, o.mmapAddr, size⟩,
       [.shmOpenExclCreate (id ++ [0]) 0o600,
        .shmOpenExisting (id ++ [0]) 0o600,
        .mmapShared (usizeOfI64 size) o.plainFd]) := by
  have hid' : (0 : Nat) ∉ id := by simpa using hid
  simp [openImpl, openFinish, hid', h1, he, hp, h3]

/-- Branch of `openImpl`: exclusive create failed with an errno other than
`EEXIST`. -/
theorem openImpl_other_fail (id : List Nat) (size : Int) (o : OpenOracle)
    (hid : id.contains 0 = false) (h1 : ¬ o.exclFd ≥ 0)
    (he : o.errno ≠ EEXIST) :
    openImpl id size o =
      (.err .CreateFailedErr, [.shmOpenExclCreate (id ++ [0]) 0o600]) := by
  have hid' : (0 : Nat) ∉ id := by simpa using hid
  simp [openImpl, hid', h1, he]

/-- For an id without an interior NUL byte, `open` never panics: every run
returns an error value or a descriptor. -/
theorem openImpl_no_panic (id : List Nat) (size : Int) (o : OpenOracle)
    (hid : id.contains 0 = false) :
    (openImpl id size o).1.isPanicked = false := by
  by_cases h1 : o.exclFd ≥ 0
  · by_cases h2 : o.ftruncRes < 0
    · rw [openImpl_alloc_fail id size o hid h1 h2]; rfl
    · by_cases h3 : o.mmapAddr = 0
      · rw [openImpl_create_null id size o hid h1 h2 h3]; rfl
      · rw [openImpl_create_ok id size o hid h1 h2 h3]; rfl
  · by_cases he : o.errno = EEXIST
    · by_cases hp : o.plainFd < 0
      · rw [openImpl_eexist_reopen_fail id size o hid h1 he hp]; rfl
      · by_cases h3 : o.mmapAddr = 0
        · rw [openImpl_eexist_null id size o hid h1 he hp h3]; rfl
        · rw [openImpl_eexist_ok id size o hid h1 he hp h3]; rfl
    · rw [openImpl_other_fail id size o hid h1 he]; rfl

/-- C1: when a typed handle's lifetime ends (and no OS call fails), the
destruction cascade is exactly: (1) `drop_in_place` on the pointee iff
`is_owner`, before anything touches the descriptor; (2) the unconditional
`munmap`; (3) `shm_unlink` iff `is_owner`; (4) `close` of the native
handle — in this order. -/
theorem c1_drop_cascade_order (b : ShmemBox) (o : DropOracle)
    (hm : o.munmapRes = 0) (hu : o.unlinkRes = 0) (hc : o.closeRes = 0) :
    ShmemBox.dropImpl b o =
      ((if b.conf.is_owner then [OsCall.dropInPlace b.ptr] else []) ++
        [OsCall.munmap b.conf.addr (usizeOfI64 b.conf.size)] ++
        (if b.conf.is_owner then
          [OsCall.shmUnlink (cstrRead (b.conf.id ++ o.trailing))] else []) ++
        [OsCall.close b.conf.fd],
       DropOutcome.ok) := by
  cases h : b.conf.is_owner <;>
    simp [ShmemBox.dropImpl, ShmemConf.dropImpl, hm, hu, hc, h]

/-- Witness for C1: concrete owning handle, all OS calls succeeding. -/
theorem c1_drop_cascade_order_witness :
    (⟨0, 0, 0, [0]⟩ : DropOracle).munmapRes = 0 ∧
    ShmemBox.dropImpl ⟨5, ⟨[97], true, 3, 5, 4⟩⟩ ⟨0, 0, 0, [0]⟩ =
      ([OsCall.dropInPlace 5, OsCall.munmap 5 4,
        OsCall.shmUnlink [97, 0], OsCall.close 3], DropOutcome.ok) :=
  ⟨rfl,
   (c1_drop_cascade_order ⟨5, ⟨[97], true, 3, 5, 4⟩⟩ ⟨0, 0, 0, [0]⟩
      rfl rfl rfl).trans (by decide)⟩

/-- C4: `ShmemBox::own` yields a handle whose descriptor has
`is_owner = true` and every other component (name, native handle, mapped
address, size, typed pointer) unchanged, and it is idempotent:
`own (own b) = own b`. -/
theorem c4_own_sets_owner_and_idempotent (b : ShmemBox) :
    (ShmemBox.own b).conf.isOwner = true ∧
    (ShmemBox.own b).conf.id = b.conf.id ∧
    (ShmemBox.own b).conf.fd = b.conf.fd ∧
    (ShmemBox.own b).conf.addr = b.conf.addr ∧
    (ShmemBox.own b).conf.size = b.conf.size ∧
    (ShmemBox.own b).ptr = b.ptr ∧
    (b.conf.isOwner = true → ShmemBox.own b = b) ∧
    ShmemBox.own (ShmemBox.own b) = ShmemBox.own b := by
  refine ⟨rfl, rfl, rfl, rfl, rfl, rfl, ?_, rfl⟩
  rcases b with ⟨p, ⟨i, ow, fd, ad, sz⟩⟩
  intro h
  simp only [ShmemConf.isOwner] at h
  subst h
  rfl

/-- Witness for C4: a concrete already-owning handle. -/
theorem c4_own_sets_owner_and_idempotent_witness :
    (⟨7, ⟨[98], true, 4, 7, 8⟩⟩ : ShmemBox).conf.isOwner = true ∧
    ShmemBox.own ⟨7, ⟨[98], true, 4, 7, 8⟩⟩ = ⟨7, ⟨[98], true, 4, 7, 8⟩⟩ :=
  ⟨rfl, (c4_own_sets_owner_and_idempotent ⟨7, ⟨[98], true, 4, 7, 8⟩⟩).2.2.2.2.2.2.1 rfl⟩

/-- C2: `open` first attempts an exclusive create restricted to the owning
user (permission `0o600`); on success the descriptor is the owner and the
object is resized (`ftruncate`) to exactly `size`; if the create fails
because the object exists, `open` retries with a non-exclusive open and the
descriptor is not the owner; any other creation failure (a non-`EEXIST`
errno, or a failing retry) returns `CreateFailedErr`. -/
theorem c2_open_create_or_attach (id : List Nat) (size : Int) (o : OpenOracle)
    (hid : id.contains 0 = false) :
    (openImpl id size o).2.head? =
      some (OsCall.shmOpenExclCreate (id ++ [0]) 0o600) ∧
    (o.exclFd ≥ 0 →
      OsCall.ftruncate o.exclFd size ∈ (openImpl id size o).2 ∧
      ∀ c, (openImpl id size o).1 = .ok c → c.is_owner = true) ∧
    (o.exclFd < 0 → o.errno = EEXIST →
      OsCall.shmOpenExisting (id ++ [0]) 0o600 ∈ (openImpl id size o).2 ∧
      ∀ c, (openImpl id size o).1 = .ok c → c.is_owner = false) ∧
    (o.exclFd < 0 → o.errno ≠ EEXIST →
      (openImpl id size o).1 = .err .CreateFailedErr) ∧
    (o.exclFd < 0 → o.errno = EEXIST → o.plainFd < 0 →
      (openImpl id size o).1 = .err .CreateFailedErr) := by
  by_cases h1 : o.exclFd ≥ 0
  · by_cases h2 : o.ftruncRes < 0
    · rw [openImpl_alloc_fail id size o hid h1 h2]
      exact ⟨rfl, fun _ => ⟨by simp, by simp⟩, fun h => absurd h (by omega),
        fun h => absurd h (by omega), fun h => absurd h (by omega)⟩
    · by_cases h3 : o.mmapAddr = 0
      · rw [openImpl_create_null id size o hid h1 h2 h3]
        exact ⟨rfl, fun _ => ⟨by simp, by simp⟩, fun h => absurd h (by omega),
          fun h => absurd h (by omega), fun h => absurd h (by omega)⟩
      · rw [openImpl_create_ok id size o hid h1 h2 h3]
        refine ⟨rfl, fun _ => ⟨by simp, ?_⟩, fun h => absurd h (by omega),
          fun h => absurd h (by omega), fun h => absurd h (by omega)⟩
        intro c hc
        simp only [OpenResult.ok.injEq] at hc
        subst hc
        rfl
  · by_cases he : o.errno = EEXIST
    · by_cases hp : o.plainFd < 0
      · rw [openImpl_eexist_reopen_fail id size o hid h1 he hp]
        exact ⟨rfl, fun h => absurd h h1, fun _ _ => ⟨by simp, by simp⟩,
          fun _ hne => absurd he hne, fun _ _ _ => rfl⟩
      · by_cases h3 : o.mmapAddr = 0
        · rw [openImpl_eexist_null id size o hid h1 he hp h3]
          exact ⟨rfl, fun h => absurd h h1, fun _ _ => ⟨by simp, by simp⟩,
            fun _ hne => absurd he hne, fun _ _ h => absurd h hp⟩
        · rw [openImpl_eexist_ok id size o hid h1 he hp h3]
          refine ⟨rfl, fun h => absurd h h1, fun _ _ => ⟨by simp, ?_⟩,
            fun _ hne => absurd he hne, fun _ _ h => absurd h hp⟩
          intro c hc
          simp only [OpenResult.ok.injEq] at hc
          subst hc
          rfl
    · rw [openImpl_other_fail id size o hid h1 he]
      exact ⟨rfl, fun h => absurd h h1, fun _ he' => absurd he' he,
        fun _ _ => rfl, fun _ he' => absurd he' he⟩

/-- Witness for C2: fresh create succeeding end to end (exclusive
`shm_open` gives fd `3`, `ftruncate` succeeds, `mmap` gives address `9`). -/
theorem c2_open_create_or_attach_witness :
    ([97] : List Nat).contains 0 = false ∧
    (openImpl [97] 4 ⟨3, 0, -1, 0, 9⟩).2.head? =
      some (OsCall.shmOpenExclCreate [97, 0] 0o600) ∧
    OsCall.ftruncate 3 4 ∈ (openImpl [97] 4 ⟨3, 0, -1, 0, 9⟩).2 := by
  have h := c2_open_create_or_attach [97] 4 ⟨3, 0, -1, 0, 9⟩ rfl
  exact ⟨rfl, h.1, (h.2.1 (by decide)).1⟩

/-- C7: after a successful create-or-attach, `open` returns
`NullPointerErr` exactly when `mmap` yields the null address; every other
mapping outcome yields `Ok` with a descriptor carrying the non-null base
address, the native handle, the resolved owner flag, the name, and the
size. -/
theorem c7_null_mapping_error (id : List Nat) (size : Int) (o : OpenOracle)
    (hid : id.contains 0 = false)
    (hatt : (o.exclFd ≥ 0 ∧ ¬ o.ftruncRes < 0) ∨
      (¬ o.exclFd ≥ 0 ∧ o.errno = EEXIST ∧ ¬ o.plainFd < 0)) :
    ((openImpl id size o).1 = .err .NullPointerErr ↔ o.mmapAddr = 0) ∧
    (o.mmapAddr ≠ 0 →
      (openImpl id size o).1 =
        .ok ⟨id, decide (o.exclFd ≥ 0),
          if o.exclFd ≥ 0 then o.exclFd else o.plainFd, o.mmapAddr, size⟩) := by
  rcases hatt with ⟨h1, h2⟩ | ⟨h1, he, hp⟩
  · by_cases h3 : o.mmapAddr = 0
    · rw [openImpl_create_null id size o hid h1 h2 h3]
      exact ⟨⟨fun _ => h3, fun _ => rfl⟩, fun h => absurd h3 h⟩
    · rw [openImpl_create_ok id size o hid h1 h2 h3]
      refine ⟨⟨fun h => by simp at h, fun h => absurd h h3⟩, fun _ => ?_⟩
      simp [h1]
  · by_cases h3 : o.mmapAddr = 0
    · rw [openImpl_eexist_null id size o hid h1 he hp h3]
      exact ⟨⟨fun _ => h3, fun _ => rfl⟩, fun h => absurd h3 h⟩
    · rw [openImpl_eexist_ok id size o hid h1 he hp h3]
      refine ⟨⟨fun h => by simp at h, fun h => absurd h h3⟩, fun _ => ?_⟩
      simp [h1]

/-- Witness for C7: attach path with non-null mapping address `9`. -/
theorem c7_null_mapping_error_witness :
    (9 : Nat) ≠ 0 ∧
    (openImpl [97] 4 ⟨-1, 17, 5, 0, 9⟩).1 = .ok ⟨[97], false, 5, 9, 4⟩ := by
  have h := c7_null_mapping_error [97] 4 ⟨-1, 17, 5, 0, 9⟩ rfl
    (Or.inr ⟨by decide, by decide, by decide⟩)
  exact ⟨by decide, (h.2 (by decide)).trans (by decide)⟩

/-- C5: every failure of the unmap, object-removal, or handle-close step of
descriptor destruction (a nonzero OS return) produces a panic — the
destruction has no recoverable-error outcome at all — whereas `open`
failures are returned as ordinary error values, never as panics. -/
theorem c5_destruction_failures_are_fatal (c : ShmemConf) (o : DropOracle)
    (id : List Nat) (size : Int) (oo : OpenOracle)
    (hid : id.contains 0 = false) :
    ((c.dropImpl o).2 = DropOutcome.ok ∨
      ∃ msg, (c.dropImpl o).2 = DropOutcome.panicked msg) ∧
    ((∃ msg, (c.dropImpl o).2 = DropOutcome.panicked msg) ↔
      (o.munmapRes ≠ 0 ∨ (c.is_owner = true ∧ o.unlinkRes ≠ 0) ∨
        o.closeRes ≠ 0)) ∧
    (openImpl id size oo).1.isPanicked = false := by
  refine ⟨?_, ?_, openImpl_no_panic id size oo hid⟩
  · rcases h : (c.dropImpl o).2 with _ | msg
    · exact Or.inl rfl
    · exact Or.inr ⟨msg, rfl⟩
  · by_cases hm : o.munmapRes = 0
    · by_cases hu : (c.is_owner = true) ∧ o.unlinkRes ≠ 0
      · rcases hu with ⟨hu1, hu2⟩
        simp [ShmemConf.dropImpl, hm, hu1, hu2]
      · by_cases hc : o.closeRes = 0
        · simp [ShmemConf.dropImpl, hm, hu, hc]
        · simp [ShmemConf.dropImpl, hm, hu, hc]
    · simp [ShmemConf.dropImpl, hm]

/-- Witness for C5: an owning descriptor whose `shm_unlink` fails panics. -/
theorem c5_destruction_failures_are_fatal_witness :
    ([97] : List Nat).contains 0 = false ∧
    ∃ msg, ((⟨[97], true, 3, 5, 4⟩ : ShmemConf).dropImpl ⟨0, -1, 0, [0]⟩).2 =
      DropOutcome.panicked msg :=
  ⟨rfl,
   (c5_destruction_failures_are_fatal ⟨[97], true, 3, 5, 4⟩ ⟨0, -1, 0, [0]⟩
      [97] 4 ⟨3, 0, -1, 0, 9⟩ rfl).2.1.2
     (Or.inr (Or.inl ⟨rfl, by decide⟩))⟩

/-- C6 counterexample: with the exclusive create succeeding (fd `3`) and
`ftruncate` failing, `open` returns `AllocationFailedErr` after issuing only
the create and the `ftruncate` — no `shm_unlink` (and no `close`), so the
just-created object is *not* removed before the error is returned. -/
theorem c6_counterexample_no_removal :
    (openImpl [97] 4 ⟨3, 0, -1, -1, 1⟩).1 = .err .AllocationFailedErr ∧
    (openImpl [97] 4 ⟨3, 0, -1, -1, 1⟩).2 =
      [OsCall.shmOpenExclCreate [97, 0] 0o600, OsCall.ftruncate 3 4] ∧
    (openImpl [97] 4 ⟨3, 0, -1, -1, 1⟩).2.any OsCall.isUnlink = false := by
  decide

/-- C6 amended: `open` returns `AllocationFailedErr` exactly when the
exclusive create succeeded but the resize failed; on this path no descriptor
is returned, but the implementation performs no cleanup — the just-created
object is not unlinked and the acquired descriptor is not closed, so the
half-created object leaks. -/
theorem c6_allocation_failed_no_cleanup (id : List Nat) (size : Int)
    (o : OpenOracle) (hid : id.contains 0 = false) :
    ((openImpl id size o).1 = .err .AllocationFailedErr ↔
      (o.exclFd ≥ 0 ∧ o.ftruncRes < 0)) ∧
    (o.exclFd ≥ 0 → o.ftruncRes < 0 →
      (openImpl id size o).2.any OsCall.isUnlink = false ∧
      (openImpl id size o).2.any OsCall.isClose = false) := by
  by_cases h1 : o.exclFd ≥ 0
  · by_cases h2 : o.ftruncRes < 0
    · rw [openImpl_alloc_fail id size o hid h1 h2]
      exact ⟨⟨fun _ => ⟨h1, h2⟩, fun _ => rfl⟩, fun _ _ => ⟨rfl, rfl⟩⟩
    · by_cases h3 : o.mmapAddr = 0
      · rw [openImpl_create_null id size o hid h1 h2 h3]
        exact ⟨⟨fun h => by simp at h, fun h => absurd h.2 h2⟩,
          fun _ h => absurd h h2⟩
      · rw [openImpl_create_ok id size o hid h1 h2 h3]
        exact ⟨⟨fun h => by simp at h, fun h => absurd h.2 h2⟩,
          fun _ h => absurd h h2⟩
  · by_cases he : o.errno = EEXIST
    · by_cases hp : o.plainFd < 0
      · rw [openImpl_eexist_reopen_fail id size o hid h1 he hp]
        exact ⟨⟨fun h => by simp at h, fun h => absurd h.1 h1⟩,
          fun h => absurd h h1⟩
      · by_cases h3 : o.mmapAddr = 0
        · rw [openImpl_eexist_null id size o hid h1 he hp h3]
          exact ⟨⟨fun h => by simp at h, fun h => absurd h.1 h1⟩,
            fun h => absurd h h1⟩
        · rw [openImpl_eexist_ok id size o hid h1 he hp h3]
          exact ⟨⟨fun h => by simp at h, fun h => absurd h.1 h1⟩,
            fun h => absurd h h1⟩
    · rw [openImpl_other_fail id size o hid h1 he]
      exact ⟨⟨fun h => by simp at h, fun h => absurd h.1 h1⟩,
        fun h => absurd h h1⟩

/-- Witness for the amended C6: the failing-`ftruncate` run. -/
theorem c6_allocation_failed_no_cleanup_witness :
    ([97] : List Nat).contains 0 = false ∧
    (openImpl [97] 8 ⟨3, 0, -1, -1, 1⟩).1 = .err .AllocationFailedErr ∧
    (openImpl [97] 8 ⟨3, 0, -1, -1, 1⟩).2.any OsCall.isUnlink = false := by
  have h := c6_allocation_failed_no_cleanup [97] 8 ⟨3, 0, -1, -1, 1⟩ rfl
  exact ⟨rfl, h.1.2 ⟨by decide, by decide⟩, (h.2 (by decide) (by decide)).1⟩

/-- C8: `with_size` accepts and stores any signed size, including `0` and
negative values, without validation or failure; a subsequent `open` never
panics — it returns an error value or a descriptor for every size — and the
mapping step receives the stored size through the wrapping `as usize`
cast. -/
theorem c8_any_size_accepted_no_crash (b : Builder) (size : Int)
    (o : OpenOracle) (hid : b.id.contains 0 = false) :
    Builder.with_size b size = ⟨b.id, size⟩ ∧
    (openImpl (Builder.with_size b size).id (Builder.with_size b size).size
      o).1.isPanicked = false ∧
    (o.exclFd ≥ 0 → ¬ o.ftruncRes < 0 →
      OsCall.mmapShared (usizeOfI64 size) o.exclFd ∈
        (openImpl (Builder.with_size b size).id
          (Builder.with_size b size).size o).2) := by
  have e1 : (Builder.with_size b size).id = b.id := rfl
  have e2 : (Builder.with_size b size).size = size := rfl
  rw [e1, e2]
  refine ⟨rfl, openImpl_no_panic b.id size o hid, ?_⟩
  intro h1 h2
  by_cases h3 : o.mmapAddr = 0
  · rw [openImpl_create_null b.id size o hid h1 h2 h3]
    simp
  · rw [openImpl_create_ok b.id size o hid h1 h2 h3]
    simp

/-- Witness for C8: size `-1` is stored as-is and `open` still returns a
plain result (here `Ok`, the OS oracle accepting everything). -/
theorem c8_any_size_accepted_no_crash_witness :
    ([97] : List Nat).contains 0 = false ∧
    Builder.with_size ⟨[97]⟩ (-1) = ⟨[97], -1⟩ ∧
    (openImpl [97] (-1) ⟨3, 0, -1, 0, 9⟩).1.isPanicked = false := by
  have h := c8_any_size_accepted_no_crash ⟨[97]⟩ (-1) ⟨3, 0, -1, 0, 9⟩ rfl
  exact ⟨rfl, h.1, h.2.1⟩

/-- C9 (code bug): `open` registers the object under the null-terminated
name `[97, 0]` (from `CString::new`), but the owning descriptor's drop
passes the `String`'s un-terminated buffer to `shm_unlink`; with bytes
`[98, 0]` sitting after the buffer the OS reads the name `[97, 98, 0]`,
which differs from the name used at creation. -/
theorem c9_unlink_name_not_null_terminated :
    (openImpl [97] 4 ⟨3, 0, -1, 0, 9⟩).1 = .ok ⟨[97], true, 3, 9, 4⟩ ∧
    (openImpl [97] 4 ⟨3, 0, -1, 0, 9⟩).2.head? =
      some (OsCall.shmOpenExclCreate [97, 0] 0o600) ∧
    ((⟨[97], true, 3, 9, 4⟩ : ShmemConf).dropImpl ⟨0, 0, 0, [98, 0]⟩).1 =
      [OsCall.munmap 9 4, OsCall.shmUnlink [97, 98, 0], OsCall.close 3] ∧
    ([97, 98, 0] : List Nat) ≠ [97, 0] := by
  refine ⟨by decide, by decide, by decide, by decide⟩

/-- C10 counterexample: on the failing-`ftruncate` run, `open` returns an
error while having acquired a descriptor (the exclusive create returned fd
`5`) and created the object, yet the trace contains no `close` and no
`shm_unlink` — the acquired resources are left behind. -/
theorem c10_counterexample_error_leaks :
    (openImpl [98] 8 ⟨5, 0, -1, -1, 2⟩).1 = .err .AllocationFailedErr ∧
    (openImpl [98] 8 ⟨5, 0, -1, -1, 2⟩).2 =
      [OsCall.shmOpenExclCreate [98, 0] 0o600, OsCall.ftruncate 5 8] ∧
    (openImpl [98] 8 ⟨5, 0, -1, -1, 2⟩).2.any OsCall.isClose = false ∧
    (openImpl [98] 8 ⟨5, 0, -1, -1, 2⟩).2.any OsCall.isUnlink = false := by
  decide

/-- C10 amended: `open` performs no cleanup on any path — it never closes a
file descriptor and never unlinks an object before returning. Only the
`CreateFailedErr` paths acquire nothing (both `shm_open` results are
negative); the `AllocationFailedErr` and `NullPointerErr` paths leak the
acquired descriptor, and the create path also leaks the created object. -/
theorem c10_open_never_cleans_up (id : List Nat) (size : Int)
    (o : OpenOracle) (hid : id.contains 0 = false) :
    (openImpl id size o).2.any OsCall.isClose = false ∧
    (openImpl id size o).2.any OsCall.isUnlink = false ∧
    ((openImpl id size o).1 = .err .CreateFailedErr →
      o.exclFd < 0 ∧ (o.errno = EEXIST → o.plainFd < 0)) := by
  by_cases h1 : o.exclFd ≥ 0
  · by_cases h2 : o.ftruncRes < 0
    · rw [openImpl_alloc_fail id size o hid h1 h2]
      exact ⟨rfl, rfl, fun h => by simp at h⟩
    · by_cases h3 : o.mmapAddr = 0
      · rw [openImpl_create_null id size o hid h1 h2 h3]
        exact ⟨rfl, rfl, fun h => by simp at h⟩
      · rw [openImpl_create_ok id size o hid h1 h2 h3]
        exact ⟨rfl, rfl, fun h => by simp at h⟩
  · by_cases he : o.errno = EEXIST
    · by_cases hp : o.plainFd < 0
      · rw [openImpl_eexist_reopen_fail id size o hid h1 he hp]
        exact ⟨rfl, rfl, fun _ => ⟨by omega, fun _ => hp⟩⟩
      · by_cases h3 : o.mmapAddr = 0
        · rw [openImpl_eexist_null id size o hid h1 he hp h3]
          exact ⟨rfl, rfl, fun h => by simp at h⟩
        · rw [openImpl_eexist_ok id size o hid h1 he hp h3]
          exact ⟨rfl, rfl, fun h => by simp at h⟩
    · rw [openImpl_other_fail id size o hid h1 he]
      exact ⟨rfl, rfl, fun _ => ⟨by omega, fun he' => absurd he' he⟩⟩

/-- Witness for the amended C10: a non-`EEXIST` create failure returns
`CreateFailedErr` having acquired nothing, and closes nothing. -/
theorem c10_open_never_cleans_up_witness :
    ([99] : List Nat).contains 0 = false ∧
    (openImpl [99] 4 ⟨-1, 13, -1, 0, 9⟩).2.any OsCall.isClose = false ∧
    (openImpl [99] 4 ⟨-1, 13, -1, 0, 9⟩).1 = .err .CreateFailedErr := by
  have h := c10_open_never_cleans_up [99] 4 ⟨-1, 13, -1, 0, 9⟩ rfl
  exact ⟨rfl, h.1, by decide⟩

/-- C3: calling `leak` (which clears `is_owner` and lets the handle's drop
cascade run) produces a destruction with no `drop_in_place` and no
`shm_unlink`, while the region is still unmapped and the handle still
closed, completing normally; the OS object table is unchanged by the trace,
so a subsequent `open` of the same name attaches (non-owner) to the
still-existing object, whose payload is the one previously written. -/
theorem c3_leak_prevents_destruction (b : ShmemBox) (o : DropOracle)
    (st : OsState) (obj : OsObject) (size' fd' : Int) (addr' : Nat)
    (hm : o.munmapRes = 0) (hc : o.closeRes = 0)
    (hid : b.conf.id.contains 0 = false)
    (hobj : lookupObj st (b.conf.id ++ [0]) = some obj)
    (hfd : fd' ≥ 0) (haddr : addr' ≠ 0) :
    (ShmemBox.leak b o).1.any OsCall.isDropInPlace = false ∧
    (ShmemBox.leak b o).1.any OsCall.isUnlink = false ∧
    OsCall.munmap b.conf.addr (usizeOfI64 b.conf.size) ∈ (ShmemBox.leak b o).1 ∧
    OsCall.close b.conf.fd ∈ (ShmemBox.leak b o).1 ∧
    (ShmemBox.leak b o).2 = DropOutcome.ok ∧
    applyCalls st (ShmemBox.leak b o).1 = some st ∧
    lookupObj st (b.conf.id ++ [0]) = some obj ∧
    (openSys b.conf.id size' st fd' addr').1 =
      .ok ⟨b.conf.id, false, fd', addr', size'⟩ := by
  have hleak : ShmemBox.leak b o =
      ([OsCall.munmap b.conf.addr (usizeOfI64 b.conf.size),
        OsCall.close b.conf.fd], DropOutcome.ok) := by
    simp [ShmemBox.leak, ShmemBox.dropImpl, ShmemConf.dropImpl, hm, hc]
  rw [hleak]
  refine ⟨rfl, rfl, by simp, by simp, rfl, rfl, hobj, ?_⟩
  have horacle : oracleOf st b.conf.id fd' addr' =
      ⟨-1, EEXIST, fd', 0, addr'⟩ := by
    simp [oracleOf, hobj]
  rw [openSys, horacle,
    openImpl_eexist_ok b.conf.id size' ⟨-1, EEXIST, fd', 0, addr'⟩ hid
      (show ¬ (-1 : Int) ≥ 0 by decide) rfl
      (show ¬ fd' < 0 by omega) haddr]

/-- Witness for C3: a concrete owning handle on name `[97]` is leaked; the
table keeps the object with payload `[42]`, and a fresh `open` attaches. -/
theorem c3_leak_prevents_destruction_witness :
    (ShmemBox.leak ⟨9, ⟨[97], true, 3, 9, 4⟩⟩
      ⟨0, 0, 0, [0]⟩).1.any OsCall.isDropInPlace = false ∧
    applyCalls [([97, 0], OsObject.mk [42])]
      (ShmemBox.leak ⟨9, ⟨[97], true, 3, 9, 4⟩⟩ ⟨0, 0, 0, [0]⟩).1 =
      some [([97, 0], OsObject.mk [42])] ∧
    (openSys [97] 4 [([97, 0], OsObject.mk [42])] 6 11).1 =
      .ok ⟨[97], false, 6, 11, 4⟩ := by
  have h := c3_leak_prevents_destruction ⟨9, ⟨[97], true, 3, 9, 4⟩⟩
    ⟨0, 0, 0, [0]⟩ [([97, 0], OsObject.mk [42])] (OsObject.mk [42]) 4 6 11
    rfl rfl rfl (by decide) (by decide) (by decide)
  exact ⟨h.1, h.2.2.2.2.2.1, h.2.2.2.2.2.2.2⟩

end ShmemBind
